import Mathlib

/-!
Verification of the SMP digital-signage backend (`backend.py`).

The backend's state (SQLAlchemy tables `users`, `players`, `pairings`,
`pairing_requests`) is embedded as lists of records; each HTTP handler
becomes a pure function from the request data and current time to a
result and an updated state.  Timestamps are integers (seconds);
`timedelta(minutes=10)` is 600 and `timedelta(hours=720)` is 2592000.
JWT tokens are modelled by their payload: `jwt.encode` packages the
payload and `jwt.decode` recovers it, failing once `exp` has passed,
so issuing is payload construction and verification an expiry check.
-/

/-- Row of the `users` table. -/
structure User where
  id : String
  email : String
  password_hash : String
  org_id : String
  company : String
  plan : String
deriving DecidableEq

/-- Row of the `players` table.  `device_id`, `content_url`,
`pairing_code` and `org_id` are nullable columns. -/
structure Player where
  player_id : String
  name : String
  device_id : Option String
  org_id : Option String
  status : String
  paired_at : Int
  last_seen : Int
  content_url : Option String
  location : String
  uptime : String
  content : String
  pairing_code : Option String
deriving DecidableEq

/-- Row of the legacy `pairings` table. -/
structure Pairing where
  pairing_code : String
  paired : Bool
  player_id : Option String
  device_id : Option String
  player_name : Option String
  org_id : Option String
deriving DecidableEq

/-- Row of the `pairing_requests` table; `status` is `"waiting"` or `"paired"`. -/
structure PairingRequest where
  id : Nat
  device_id : String
  pairing_code : String
  status : String
deriving DecidableEq

/-- The whole database. -/
structure DB where
  users : List User
  players : List Player
  pairings : List Pairing
  pairing_requests : List PairingRequest
deriving DecidableEq

/-- JWT payload built by `generate_token`. -/
structure TokenPayload where
  user_id : String
  org_id : Option String
  exp : Int
  iat : Int
deriving DecidableEq

/-- `JWT_EXPIRY_HOURS = 720` (hours), here converted to seconds. -/
def JWT_EXPIRY_SECONDS : Int := 720 * 3600

/-- `generate_token`: payload with `exp = now + 720 hours`. -/
def generate_token (user_id : String) (org_id : Option String) (now : Int) : TokenPayload :=
  { user_id := user_id, org_id := org_id, exp := now + JWT_EXPIRY_SECONDS, iat := now }

/-- `verify_token`: `jwt.decode` returns the payload, or fails (returns
`None`) when the expiry has passed. -/
def verify_token (tok : TokenPayload) (now : Int) : Option TokenPayload :=
  if now > tok.exp then none else some tok

/-- Replace the first element satisfying `p` by its image under `f`
(SQLAlchemy mutation of the row returned by `query...first()`). -/
def updateFirst (p : α → Bool) (f : α → α) : List α → List α
  | [] => []
  | x :: xs => if p x then f x :: xs else x :: updateFirst p f xs

/-- Result of `POST /api/auth/login`. -/
inductive LoginResult
  | missingFields
  | invalidCredentials
  | success (token : TokenPayload) (user_id : String) (org_id : String)
deriving DecidableEq

/-- HTTP status attached to each login outcome. -/
def login_http_status : LoginResult → Nat
  | .missingFields => 400
  | .invalidCredentials => 401
  | .success _ _ _ => 200

/-- `login`: look the user up by email, check the password with bcrypt
(`checkpw` abstracts the external bcrypt library), and on the single
combined check `not user or not bcrypt.checkpw(...)` answer
`"Invalid credentials"`, 401. -/
def login (db : DB) (checkpw : String → String → Bool)
    (email password : String) (now : Int) : LoginResult :=
  if email == "" || password == "" then .missingFields
  else
    match db.users.find? (fun u => u.email == email) with
    | none => .invalidCredentials
    | some user =>
      if !(checkpw password user.password_hash) then .invalidCredentials
      else .success (generate_token user.id (some user.org_id) now) user.id user.org_id

/-- Result of `POST /api/player/check-pairing` (always HTTP 200). -/
inductive CheckPairingResult
  | notPaired
  | isPaired (token : TokenPayload) (player_id : Option String) (player_name : String)
deriving DecidableEq

/-- `player_check_pairing`: look the `Pairing` row up by code; answer
`paired: false` on a missing row, a device-id mismatch or an unpaired
row, else issue a device token under the pairing's org. -/
def player_check_pairing (db : DB) (device_id pairing_code : String)
    (now : Int) : CheckPairingResult :=
  match db.pairings.find? (fun p => p.pairing_code == pairing_code) with
  | none => .notPaired
  | some pinfo =>
    if !(pinfo.device_id == some device_id) then .notPaired
    else if !pinfo.paired then .notPaired
    else .isPaired (generate_token device_id pinfo.org_id now)
        pinfo.player_id (pinfo.player_name.getD "Player")

/-- Default placeholder content URL of `player_get_content` (the inline
`data:text/html` gradient page from the source, abbreviated to its
scheme and identifying text). -/
def DEFAULT_CONTENT_URL : String := "data:text/html,SMP Digital Signage placeholder"

/-- Result of `POST /api/player/get-content`. -/
inductive GetContentResult
  | invalidToken
  | playerNotFound
  | ok (content_url : String) (refresh_interval : Nat) (updated_at : Int)
deriving DecidableEq

/-- `player_get_content`: verify the token (the payload is unused), look
the player up by device id, set `last_seen = now` and `status = "online"`,
and return the assigned content URL or the default placeholder with a
fixed `refresh_interval` of 300. -/
def player_get_content (db : DB) (device_id : String) (tok : TokenPayload)
    (now : Int) : GetContentResult × DB :=
  match verify_token tok now with
  | none => (.invalidToken, db)
  | some _ =>
    match db.players.find? (fun p => p.device_id == some device_id) with
    | none => (.playerNotFound, db)
    | some player =>
      (.ok (player.content_url.getD DEFAULT_CONTENT_URL) 300 now,
       { db with players := (updateFirst (fun p => p.device_id == some device_id)
           (fun p => { p with last_seen := now, status := "online" }) db.players) })

/-- Status refresh done per row in the two listing endpoints: a row
older than 10 minutes is written back as `"offline"`, otherwise the
stored status is kept. -/
def refresh_status (now : Int) (p : Player) : Player :=
  if now - p.last_seen > 600 then { p with status := "offline" } else p

/-- Status a row shows in a listing response. -/
def list_status (now : Int) (p : Player) : String :=
  (refresh_status now p).status

/-- `admin_list_players`: after token verification, list the players of
the token's org, refreshing (and persisting) each one's status; `none`
models the 401 response. -/
def admin_list_players (db : DB) (tok : TokenPayload) (now : Int) :
    Option (List Player) × DB :=
  match verify_token tok now with
  | none => (none, db)
  | some payload =>
    let updated := db.players.map
      (fun p => if p.org_id == payload.org_id then refresh_status now p else p)
    (some (updated.filter (fun p => p.org_id == payload.org_id)),
     { db with players := updated })

/-- Result of `POST /api/admin/assign-content`. -/
inductive AssignResult
  | invalidToken
  | notFound
  | success
deriving DecidableEq

/-- `admin_assign_content`: look the player up by id; `not player or
player.org_id != payload["org_id"]` answers the one 404, else store the
content URL. -/
def admin_assign_content (db : DB) (tok : TokenPayload) (now : Int)
    (player_id : String) (content_url : Option String) : AssignResult × DB :=
  match verify_token tok now with
  | none => (.invalidToken, db)
  | some payload =>
    match db.players.find? (fun p => p.player_id == player_id) with
    | none => (.notFound, db)
    | some player =>
      if !(player.org_id == payload.org_id) then (.notFound, db)
      else (.success,
        { db with players := (updateFirst (fun p => p.player_id == player_id)
            (fun p => { p with content_url := content_url }) db.players) })

/-- Result of `POST /api/public/register-pairing`. -/
inductive RegisterResult
  | missingFields
  | registered
deriving DecidableEq

/-- `register_pairing`: delete every `PairingRequest` row matching the
device id or the pairing code — with no filter on `status` — then insert
a fresh `"waiting"` request (`fresh_id` stands for the autoincrement
key). -/
def register_pairing (db : DB) (device_id pairing_code : String)
    (fresh_id : Nat) : RegisterResult × DB :=
  if device_id == "" || pairing_code == "" then (.missingFields, db)
  else
    (.registered,
     { db with pairing_requests :=
        (db.pairing_requests.filter
          (fun r => !(r.device_id == device_id) && !(r.pairing_code == pairing_code)))
        ++ [{ id := fresh_id, device_id := device_id,
              pairing_code := pairing_code, status := "waiting" }] })

/-- Request row matching `PairingRequest.query.filter_by(pairing_code=c, status="waiting")`. -/
def waitPred (code : String) (r : PairingRequest) : Bool :=
  r.pairing_code == code && r.status == "waiting"

/-- Request row matching `status="paired"` for a code. -/
def pairedPred (code : String) (r : PairingRequest) : Bool :=
  r.pairing_code == code && r.status == "paired"

/-- `req.status = "paired"` mutation. -/
def markPaired (r : PairingRequest) : PairingRequest :=
  { r with status := "paired" }

/-- Legacy `Pairing` upsert of `admin_pair_device`. -/
def upsertPairing (code pid did name : String) (org : Option String)
    (ps : List Pairing) : List Pairing :=
  match ps.find? (fun p => p.pairing_code == code) with
  | none => ps ++ [{ pairing_code := code, paired := true, player_id := some pid,
                     device_id := some did, player_name := some name, org_id := org }]
  | some _ => updateFirst (fun p => p.pairing_code == code)
      (fun p =>
        { p with
          paired := true
          player_id := some pid
          device_id := some did
          player_name := some name
          org_id := org }) ps

/-- Result of `POST /api/admin/pair-device`.  `internalError` is the
HTTP 500 produced when `db.session.commit()` raises an IntegrityError
on the `players.device_id` (or primary key) unique constraint; the
transaction is not persisted. -/
inductive PairDeviceResult
  | invalidToken
  | missingCode
  | alreadyPaired
  | invalidCode
  | internalError
  | success (player_id : String) (player_name : String)
deriving DecidableEq

/-- `admin_pair_device`: verify the admin token, find the `"waiting"`
request for the code (distinguishing an already-`"paired"` code from an
unknown one), create a `Player` for the request's device under the
token's org, mark the request paired, upsert the legacy `Pairing` row
and commit.  `fresh_player_id` stands for the generated
`player-<token_urlsafe>` id; the commit-time unique constraints on
`players.device_id` and `players.player_id` are checked explicitly. -/
def admin_pair_device (db : DB) (tok : TokenPayload) (now : Int)
    (pairing_code player_name location fresh_player_id : String) :
    PairDeviceResult × DB :=
  match verify_token tok now with
  | none => (.invalidToken, db)
  | some payload =>
    if pairing_code == "" then (.missingCode, db)
    else
      match db.pairing_requests.find? (waitPred pairing_code) with
      | none =>
        match db.pairing_requests.find? (pairedPred pairing_code) with
        | some _ => (.alreadyPaired, db)
        | none => (.invalidCode, db)
      | some req =>
        if db.players.any (fun p => p.device_id == some req.device_id)
            || db.players.any (fun p => p.player_id == fresh_player_id) then
          (.internalError, db)
        else
          (.success fresh_player_id player_name,
           { db with
             players := db.players ++ [{
               player_id := fresh_player_id, name := player_name,
               device_id := some req.device_id, org_id := payload.org_id,
               status := "online", paired_at := now, last_seen := now,
               content_url := none, location := location, uptime := "0h",
               content := "None", pairing_code := some pairing_code }],
             pairing_requests :=
               updateFirst (waitPred pairing_code) markPaired db.pairing_requests,
             pairings := upsertPairing pairing_code fresh_player_id
               req.device_id player_name payload.org_id db.pairings })

/-- `GET /health`: total player count and count of players with
`last_seen > now - 10 minutes` (strict comparison). -/
def health (db : DB) (now : Int) : Nat × Nat :=
  (db.players.length,
   (db.players.filter (fun p => p.last_seen > now - 600)).length)

/-! Operations touching the pairing and player state, for trace
properties over sequences of requests. -/

/-- One incoming request (the operations that touch the shared state). -/
inductive Op where
  | register (device_id pairing_code : String) (fresh : Nat)
  | pair (tok : TokenPayload) (now : Int) (code name loc fresh_pid : String)
  | checkPairing (device_id code : String) (now : Int)
  | getContent (device_id : String) (tok : TokenPayload) (now : Int)
  | assign (tok : TokenPayload) (now : Int) (pid : String) (url : Option String)
  | listPlayers (tok : TokenPayload) (now : Int)
deriving DecidableEq

/-- State reached after handling one request. -/
def stepDB (db : DB) : Op → DB
  | .register d c f => (register_pairing db d c f).2
  | .pair tok now c n l fp => (admin_pair_device db tok now c n l fp).2
  | .checkPairing _ _ _ => db
  | .getContent d tok now => (player_get_content db d tok now).2
  | .assign tok now pid url => (admin_assign_content db tok now pid url).2
  | .listPlayers tok now => (admin_list_players db tok now).2

/-- Whether the operation is a successful consume (`admin_pair_device`)
of the pairing code `c` in state `db`. -/
def isConsumeSuccess (c : String) (db : DB) : Op → Bool
  | .pair tok now code n l fp =>
    code == c &&
      (match (admin_pair_device db tok now code n l fp).1 with
       | .success _ _ => true
       | _ => false)
  | _ => false

/-- Whether the operation re-registers (`register_pairing`) the code `c`. -/
def isRegisterFor (c : String) : Op → Bool
  | .register _ code _ => code == c
  | _ => false

/-- Number of successful consumes of code `c` along a request sequence. -/
def consumeSuccessCount (c : String) : DB → List Op → Nat
  | _, [] => 0
  | db, op :: ops =>
    (if isConsumeSuccess c db op then 1 else 0)
      + consumeSuccessCount c (stepDB db op) ops

/-- Number of `"waiting"` pairing requests stored for code `c`. -/
def waitingCount (c : String) (db : DB) : Nat :=
  (db.pairing_requests.filter (waitPred c)).length

/-! Concrete states used to evaluate the theorems. -/

/-- Admin token of org `O1`. -/
def adminTok : TokenPayload := generate_token "admin-1" (some "O1") 0

/-- State after device `D1` registers code `123456`. -/
def dbC1a : DB := (register_pairing ⟨[], [], [], []⟩ "D1" "123456" 1).2

/-- First consume of code `123456`. -/
def pairC1a : PairDeviceResult × DB :=
  admin_pair_device dbC1a adminTok 0 "123456" "Lobby" "" "player-1"

/-- State after that consume. -/
def dbC1b : DB := pairC1a.2

/-- Device `D2` re-registers the already-consumed code `123456`. -/
def regC1b : RegisterResult × DB := register_pairing dbC1b "D2" "123456" 2

/-- State after the re-registration. -/
def dbC1c : DB := regC1b.2

/-- Second consume of the same code `123456`. -/
def pairC1b : PairDeviceResult × DB :=
  admin_pair_device dbC1c adminTok 0 "123456" "Lobby2" "" "player-2"

/-- Consume-only request sequence used as the C1 witness trace. -/
def opsC1 : List Op :=
  [Op.pair adminTok 0 "123456" "Lobby" "" "player-1",
   Op.pair adminTok 0 "123456" "Lobby2" "" "player-2"]

/-- Player whose `last_seen` sits exactly at the 10-minute boundary
when observed at time 600. -/
def boundaryPlayer : Player :=
  { player_id := "p-2", name := "Window", device_id := some "D2w",
    org_id := some "O2", status := "online", paired_at := 0, last_seen := 0,
    content_url := none, location := "", uptime := "0h", content := "None",
    pairing_code := some "200000" }

/-- Database holding only `boundaryPlayer`. -/
def boundaryDB : DB := ⟨[], [boundaryPlayer], [], []⟩

/-- A pairing record paired to device `DA`. -/
def pairingC3 : Pairing :=
  ⟨"222222", true, some "p-3", some "DA", some "Shop", some "O3"⟩

/-- Database for the C3 witness. -/
def dbC3 : DB := ⟨[], [], [pairingC3], []⟩

/-- Players of two different organizations. -/
def playerOrgA : Player :=
  { player_id := "pa", name := "A", device_id := some "DPA",
    org_id := some "OA", status := "online", paired_at := 0, last_seen := 0,
    content_url := none, location := "", uptime := "0h", content := "None",
    pairing_code := none }

/-- Player owned by the other organization `OB`. -/
def playerOrgB : Player :=
  { player_id := "pb", name := "B", device_id := some "DPB",
    org_id := some "OB", status := "online", paired_at := 0, last_seen := 0,
    content_url := none, location := "", uptime := "0h", content := "None",
    pairing_code := none }

/-- Database for the C4 witness. -/
def dbC4 : DB := ⟨[], [playerOrgA, playerOrgB], [], []⟩

/-- Token of org `OA` for the C4 witness. -/
def tokC4 : TokenPayload := generate_token "admin-4" (some "OA") 0

/-- Paired pairing record for the C5 witness. -/
def pairingC5 : Pairing :=
  ⟨"333333", true, some "p-5", some "D5", some "Hall", some "O5"⟩

/-- Player of org `O5` for the C5 witness. -/
def playerC5 : Player :=
  { player_id := "p-5", name := "Hall", device_id := some "D5",
    org_id := some "O5", status := "online", paired_at := 0, last_seen := 0,
    content_url := none, location := "", uptime := "0h", content := "None",
    pairing_code := some "333333" }

/-- Database holding the C5 pairing record. -/
def dbC5 : DB := ⟨[], [], [pairingC5], []⟩

/-- The device token `check-pairing` issues for the C5 pairing. -/
def tokC5 : TokenPayload := generate_token "D5" (some "O5") 0

/-- Database holding the C5 player. -/
def db2C5 : DB := ⟨[], [playerC5], [], []⟩

/-- Player whose waiting request's device already owns a player
(state for C7): `D1` owns `player-1` and request 7 waits on `654321`. -/
def dupPlayer : Player :=
  { player_id := "player-1", name := "Lobby", device_id := some "D1",
    org_id := some "O1", status := "online", paired_at := 0, last_seen := 0,
    content_url := none, location := "", uptime := "0h", content := "None",
    pairing_code := some "111111" }

/-- Database for C7. -/
def dbC7 : DB := ⟨[], [dupPlayer], [], [⟨7, "D1", "654321", "waiting"⟩]⟩

/-- Admin token for C7. -/
def tokC7 : TokenPayload := generate_token "admin-2" (some "O1") 0

/-- Player with no assigned content, for the C8 witness. -/
def playerC8 : Player :=
  { player_id := "p-8", name := "Foyer", device_id := some "D8",
    org_id := some "O8", status := "offline", paired_at := 0, last_seen := 0,
    content_url := none, location := "", uptime := "0h", content := "None",
    pairing_code := some "800000" }

/-- Database for the C8 witness. -/
def dbC8 : DB := ⟨[], [playerC8], [], []⟩

/-- Device token of org `O8` for the C8 witness. -/
def tokC8 : TokenPayload := generate_token "D8" (some "O8") 0

/-- Player of org `OX` with assigned content, for the C10 witness. -/
def playerC10 : Player :=
  { player_id := "p-10", name := "Target", device_id := some "D10",
    org_id := some "OX", status := "online", paired_at := 0, last_seen := 0,
    content_url := some "https://cdn.example/v.mp4", location := "",
    uptime := "0h", content := "None", pairing_code := some "100000" }

/-- Database for the C10 witness. -/
def dbC10 : DB := ⟨[], [playerC10], [], []⟩

/-- Token of an unrelated org `OY`, for the C10 witness. -/
def tokC10 : TokenPayload := generate_token "mallory" (some "OY") 0

/-- User record for the C9 witness. -/
def userC9 : User := ⟨"user-9", "alice@x.com", "pw123", "org-9", "ACME", "free"⟩

/-- Database for the C9 witness. -/
def dbC9 : DB := ⟨[userC9], [], [], []⟩

/-- Claim C6: for every subject `u` and organization `o`,
`verify(issue(u, o))` succeeds before `expiresAt = issue time + the
fixed validity window` and returns claims with subject `u` and org `o`;
once `expiresAt` has passed it always fails. -/
theorem c6_verify_issue_roundtrip (u : String) (o : Option String) (t₁ t₂ : Int) :
    ((generate_token u o t₁).exp = t₁ + JWT_EXPIRY_SECONDS)
    ∧ (t₂ < (generate_token u o t₁).exp →
        ∃ p, verify_token (generate_token u o t₁) t₂ = some p
          ∧ p.user_id = u ∧ p.org_id = o)
    ∧ ((generate_token u o t₁).exp < t₂ →
        verify_token (generate_token u o t₁) t₂ = none) := by
  refine ⟨rfl, fun h => ⟨generate_token u o t₁, ?_, rfl, rfl⟩, fun h => ?_⟩
  · simp [verify_token]
    omega
  · simp [verify_token]
    omega

/-- Witness for C6 at a concrete subject, org and pair of times. -/
theorem c6_verify_issue_roundtrip_witness :
    (2 : Int) < (generate_token "alice" (some "org-1") 0).exp
    ∧ (∃ p, verify_token (generate_token "alice" (some "org-1") 0) 2 = some p
        ∧ p.user_id = "alice" ∧ p.org_id = some "org-1") :=
  ⟨by decide, (c6_verify_issue_roundtrip "alice" (some "org-1") 0 2).2.1 (by decide)⟩

/-- Inversion of a positive `player_check_pairing` answer: the stored
pairing row under the code matches the device and is paired, and the
returned token is the device token under the pairing's org. -/
theorem check_pairing_isPaired_inv {db : DB} {device_id code : String} {now : Int}
    {t : TokenPayload} {pid : Option String} {pn : String}
    (h : player_check_pairing db device_id code now = .isPaired t pid pn) :
    ∃ pinfo, db.pairings.find? (fun p => p.pairing_code == code) = some pinfo
      ∧ pinfo ∈ db.pairings ∧ pinfo.pairing_code = code
      ∧ pinfo.device_id = some device_id ∧ pinfo.paired = true
      ∧ t = generate_token device_id pinfo.org_id now ∧ pid = pinfo.player_id := by
  unfold player_check_pairing at h
  cases hfind : db.pairings.find? (fun p => p.pairing_code == code) with
  | none => rw [hfind] at h; exact absurd h (by simp)
  | some pinfo =>
    rw [hfind] at h
    have hcode : pinfo.pairing_code = code := by
      have := List.find?_some hfind
      simpa using this
    by_cases hdev : pinfo.device_id = some device_id
    · by_cases hp : pinfo.paired = true
      · have h2 : CheckPairingResult.isPaired (generate_token device_id pinfo.org_id now)
            pinfo.player_id (pinfo.player_name.getD "Player") = .isPaired t pid pn := by
          simpa [hdev, hp] using h
        rw [CheckPairingResult.isPaired.injEq] at h2
        exact ⟨pinfo, rfl, List.mem_of_find?_eq_some hfind, hcode, hdev, hp,
          h2.1.symm, h2.2.1.symm⟩
      · simp [hdev, hp] at h
    · simp [hdev] at h

/-- Claim C3: `checkStatus(deviceId, code)` answers `paired:false` (with
no token) whenever `deviceId` differs from the device id stored under
`code` — even if the code is paired for another device — and answers
`paired:true` with a token only when the stored row is paired and the
device ids match. -/
theorem c3_check_status_device_binding (db : DB) (device_id code : String) (now : Int) :
    ((∀ pinfo ∈ db.pairings, pinfo.pairing_code = code → pinfo.device_id ≠ some device_id) →
      player_check_pairing db device_id code now = .notPaired)
    ∧ (∀ t pid pn, player_check_pairing db device_id code now = .isPaired t pid pn →
        ∃ pinfo ∈ db.pairings, pinfo.pairing_code = code
          ∧ pinfo.device_id = some device_id ∧ pinfo.paired = true
          ∧ t = generate_token device_id pinfo.org_id now) := by
  constructor
  · intro h
    unfold player_check_pairing
    cases hfind : db.pairings.find? (fun p => p.pairing_code == code) with
    | none => rfl
    | some pinfo =>
      have hcode : pinfo.pairing_code = code := by
        have := List.find?_some hfind
        simpa using this
      have hdev := h pinfo (List.mem_of_find?_eq_some hfind) hcode
      simp [hdev]
  · intro t pid pn h
    obtain ⟨pinfo, _, hmem, hcode, hdev, hp, ht, _⟩ := check_pairing_isPaired_inv h
    exact ⟨pinfo, hmem, hcode, hdev, hp, ht⟩

/-- Witness for C3: device `DB2` probing code `222222`, which is paired
to device `DA`, is told `paired:false`. -/
theorem c3_check_status_device_binding_witness :
    (∀ pinfo ∈ dbC3.pairings, pinfo.pairing_code = "222222" → pinfo.device_id ≠ some "DB2")
    ∧ player_check_pairing dbC3 "DB2" "222222" 0 = .notPaired :=
  ⟨by decide, (c3_check_status_device_binding dbC3 "DB2" "222222" 0).1 (by decide)⟩

/-- Claim C9: `authenticate` answers the one `InvalidCredentials`
result — same error value, same 401 status, no token — both when the
email is unknown and when the password check fails, and succeeds with a
token exactly when the email is found and the password matches. -/
theorem c9_login_indistinguishable (db : DB) (checkpw : String → String → Bool)
    (email password : String) (now : Int)
    (he : ¬ email = "") (hp : ¬ password = "") :
    (db.users.find? (fun u => u.email == email) = none →
      login db checkpw email password now = .invalidCredentials
        ∧ login_http_status (login db checkpw email password now) = 401)
    ∧ (∀ u, db.users.find? (fun u2 => u2.email == email) = some u →
        checkpw password u.password_hash = false →
        login db checkpw email password now = .invalidCredentials
          ∧ login_http_status (login db checkpw email password now) = 401)
    ∧ ((∃ t uid oid, login db checkpw email password now = .success t uid oid) ↔
        (∃ u, db.users.find? (fun u2 => u2.email == email) = some u
          ∧ checkpw password u.password_hash = true)) := by
  have hee : (email == "") = false := by simpa using he
  have hpp : (password == "") = false := by simpa using hp
  refine ⟨?_, ?_, ?_⟩
  · intro hfind
    simp [login, hee, hpp, hfind, login_http_status]
  · intro u hfind hcheck
    simp [login, hee, hpp, hfind, hcheck, login_http_status]
  · constructor
    · rintro ⟨t, uid, oid, hres⟩
      unfold login at hres
      rw [if_neg (by simp [hee, hpp])] at hres
      cases hfind : db.users.find? (fun u2 => u2.email == email) with
      | none => rw [hfind] at hres; exact absurd hres (by simp)
      | some u =>
        rw [hfind] at hres
        by_cases hc : checkpw password u.password_hash = true
        · exact ⟨u, rfl, hc⟩
        · simp [hc] at hres
    · rintro ⟨u, hfind, hc⟩
      refine ⟨generate_token u.id (some u.org_id) now, u.id, u.org_id, ?_⟩
      simp [login, hee, hpp, hfind, hc]

/-- Witness for C9: an unknown email and a wrong password for `alice@x.com`
produce the same `invalidCredentials`/401, and the right password logs in. -/
theorem c9_login_indistinguishable_witness :
    (login dbC9 (fun pw h => pw == h) "bob@x.com" "pw123" 0 = .invalidCredentials
      ∧ login_http_status (login dbC9 (fun pw h => pw == h) "bob@x.com" "pw123" 0) = 401)
    ∧ (login dbC9 (fun pw h => pw == h) "alice@x.com" "wrong" 0 = .invalidCredentials
      ∧ login_http_status (login dbC9 (fun pw h => pw == h) "alice@x.com" "wrong" 0) = 401)
    ∧ (∃ t uid oid, login dbC9 (fun pw h => pw == h) "alice@x.com" "pw123" 0 = .success t uid oid) := by
  refine ⟨?_, ?_, ?_⟩
  · exact (c9_login_indistinguishable dbC9 (fun pw h => pw == h) "bob@x.com" "pw123" 0
      (by decide) (by decide)).1 (by decide)
  · exact (c9_login_indistinguishable dbC9 (fun pw h => pw == h) "alice@x.com" "wrong" 0
      (by decide) (by decide)).2.1 userC9 (by decide) (by decide)
  · exact (c9_login_indistinguishable dbC9 (fun pw h => pw == h) "alice@x.com" "pw123" 0
      (by decide) (by decide)).2.2.mpr ⟨userC9, by decide, by decide⟩

/-- Counterexample to C2: at exactly the 10-minute boundary
(`now - last_seen = 600 ≤ 600`, so the claim calls the player online)
the listing keeps reporting `"online"` while the health count — strict
`last_seen > now - 600` — excludes the player (0 of 1 online): the two
operations classify the boundary differently. -/
theorem c2_boundary_counterexample :
    (600 : Int) - boundaryPlayer.last_seen = 600
    ∧ list_status 600 boundaryPlayer = "online"
    ∧ (health boundaryDB 600).1 = 1
    ∧ (health boundaryDB 600).2 = 0 := by
  refine ⟨by decide, ?_, by decide, by decide⟩
  decide

/-- Claim C2 as amended: in listings a row is forced `"offline"` iff it
is strictly older than 10 minutes, and otherwise shows its stored
status (so the boundary row stays online); the health count instead
counts online iff strictly younger than 10 minutes, excluding the
boundary row — the two agree except at exactly 10 minutes. -/
theorem c2_liveness_amended (db : DB) (now : Int) (p : Player) :
    (now - p.last_seen > 600 → list_status now p = "offline")
    ∧ (now - p.last_seen ≤ 600 → list_status now p = p.status)
    ∧ (health db now).2 = (db.players.filter (fun q => now - q.last_seen < 600)).length
    ∧ (health db now).1 = db.players.length := by
  refine ⟨?_, ?_, ?_, rfl⟩
  · intro h
    simp [list_status, refresh_status, h]
  · intro h
    have h2 : ¬ (now - p.last_seen > 600) := by omega
    simp [list_status, refresh_status, h2]
  · have heq : db.players.filter (fun q => q.last_seen > now - 600)
        = db.players.filter (fun q => now - q.last_seen < 600) := by
      apply List.filter_congr
      intro q _
      simp only [decide_eq_decide]
      omega
    simpa [health] using congrArg List.length heq

/-- Witness for C2's amended statement: a row 11 minutes old is forced
offline, a row 9 minutes old keeps its stored `"online"` status, and
the health count at the boundary instant is the strict-window count. -/
theorem c2_liveness_amended_witness :
    ((660 : Int) - boundaryPlayer.last_seen > 600
      ∧ list_status 660 boundaryPlayer = "offline")
    ∧ ((540 : Int) - boundaryPlayer.last_seen ≤ 600
      ∧ list_status 540 boundaryPlayer = boundaryPlayer.status)
    ∧ (health boundaryDB 600).2
        = (boundaryDB.players.filter (fun q => (600 : Int) - q.last_seen < 600)).length :=
  ⟨⟨by decide, (c2_liveness_amended boundaryDB 660 boundaryPlayer).1 (by decide)⟩,
   ⟨by decide, (c2_liveness_amended boundaryDB 540 boundaryPlayer).2.1 (by decide)⟩,
   (c2_liveness_amended boundaryDB 600 boundaryPlayer).2.2.1⟩

/-- When the first element matching `p` is rewritten by `f` and still
matches `p`, it is still the first match afterwards. -/
theorem find?_updateFirst_eq {p : α → Bool} {f : α → α} :
    ∀ {l : List α} {x : α}, l.find? p = some x → p (f x) = true →
      (updateFirst p f l).find? p = some (f x) := by
  intro l
  induction l with
  | nil => intro x h _; simp at h
  | cons y ys ih =>
    intro x h hfx
    by_cases hy : p y = true
    · rw [List.find?_cons_of_pos _ hy] at h
      cases h
      rw [updateFirst, if_pos hy]
      exact List.find?_cons_of_pos _ hfx
    · rw [List.find?_cons_of_neg _ (by simpa using hy)] at h
      rw [updateFirst, if_neg hy, List.find?_cons_of_neg _ (by simpa using hy)]
      exact ih h hfx

/-- Claim C8: a paired device with a valid token and no assigned content
gets the fixed default placeholder URL with a refresh interval of exactly
300 seconds, and its player row is touched to `last_seen = now`,
`status = "online"`. -/
theorem c8_default_content (db : DB) (device_id : String) (tok : TokenPayload)
    (now : Int) (payload : TokenPayload) (player : Player)
    (hv : verify_token tok now = some payload)
    (hfind : db.players.find? (fun p => p.device_id == some device_id) = some player)
    (hnone : player.content_url = none) :
    (player_get_content db device_id tok now).1
      = .ok DEFAULT_CONTENT_URL 300 now
    ∧ (player_get_content db device_id tok now).2.players.find?
        (fun p => p.device_id == some device_id)
      = some { player with last_seen := now, status := "online" } := by
  have hp : ((fun p => p.device_id == some device_id) player) = true := by
    have h2 := List.find?_some hfind
    simpa using h2
  constructor
  · simp [player_get_content, hv, hfind, hnone]
  · simp only [player_get_content, hv, hfind]
    exact find?_updateFirst_eq hfind hp

/-- Witness for C8 on a concrete device, token and state. -/
theorem c8_default_content_witness :
    verify_token tokC8 0 = some tokC8
    ∧ dbC8.players.find? (fun p => p.device_id == some "D8") = some playerC8
    ∧ playerC8.content_url = none
    ∧ (player_get_content dbC8 "D8" tokC8 0).1 = .ok DEFAULT_CONTENT_URL 300 0 :=
  ⟨by decide, by decide, by decide,
   (c8_default_content dbC8 "D8" tokC8 0 tokC8 playerC8
     (by decide) (by decide) (by decide)).1⟩

/-- Claim C10: `get-content` never checks the token against the device:
any verifying token — here one whose org differs from the player's —
reads the player's content and touches its liveness. -/
theorem c10_token_not_bound_to_device (db : DB) (device_id : String)
    (tok : TokenPayload) (now : Int) (payload : TokenPayload) (player : Player)
    (hv : verify_token tok now = some payload)
    (hfind : db.players.find? (fun p => p.device_id == some device_id) = some player)
    (_hcross : payload.org_id ≠ player.org_id) :
    (player_get_content db device_id tok now).1
      = .ok (player.content_url.getD DEFAULT_CONTENT_URL) 300 now
    ∧ (player_get_content db device_id tok now).2.players.find?
        (fun p => p.device_id == some device_id)
      = some { player with last_seen := now, status := "online" } := by
  have hp : ((fun p => p.device_id == some device_id) player) = true := by
    have h2 := List.find?_some hfind
    simpa using h2
  constructor
  · simp [player_get_content, hv, hfind]
  · simp only [player_get_content, hv, hfind]
    exact find?_updateFirst_eq hfind hp

/-- Witness for C10: the org-`OY` token reads and touches the org-`OX`
player's content. -/
theorem c10_token_not_bound_to_device_witness :
    verify_token tokC10 5 = some tokC10
    ∧ dbC10.players.find? (fun p => p.device_id == some "D10") = some playerC10
    ∧ tokC10.org_id ≠ playerC10.org_id
    ∧ (player_get_content dbC10 "D10" tokC10 5).1 = .ok "https://cdn.example/v.mp4" 300 5 :=
  ⟨by decide, by decide, by decide,
   (c10_token_not_bound_to_device dbC10 "D10" tokC10 5 tokC10 playerC10
     (by decide) (by decide) (by decide)).1⟩

/-- Refreshing a row's status keeps its org. -/
theorem refresh_status_org (now : Int) (p : Player) :
    (refresh_status now p).org_id = p.org_id := by
  unfold refresh_status; split <;> rfl

/-- Refreshing a row's status keeps its player id. -/
theorem refresh_status_pid (now : Int) (p : Player) :
    (refresh_status now p).player_id = p.player_id := by
  unfold refresh_status; split <;> rfl

/-- With a verifying token, `admin_list_players` answers the refreshed
rows of the token's org: every listed row carries the token's org, and
every stored row of that org is listed (by player id). -/
theorem list_players_ok (db : DB) (tok : TokenPayload) (now : Int)
    (payload : TokenPayload) (hv : verify_token tok now = some payload) :
    ∃ l, (admin_list_players db tok now).1 = some l
      ∧ (∀ p ∈ l, p.org_id = payload.org_id)
      ∧ (∀ q ∈ db.players, q.org_id = payload.org_id →
          ∃ p ∈ l, p.player_id = q.player_id) := by
  simp only [admin_list_players, hv]
  refine ⟨_, rfl, ?_, ?_⟩
  · intro p hp
    have h2 := (List.mem_filter.mp hp).2
    simpa using h2
  · intro q hq horg
    refine ⟨refresh_status now q, ?_, refresh_status_pid now q⟩
    apply List.mem_filter.mpr
    constructor
    · have himg : (fun p => if p.org_id == payload.org_id then refresh_status now p else p) q
          = refresh_status now q := by simp [horg]
      exact himg ▸ List.mem_map_of_mem _ hq
    · simp [refresh_status_org, horg]

/-- Mapping a guard-respecting rewrite over the guarded elements leaves
the unguarded elements of a list untouched. -/
theorem filter_not_map_guard {α : Type} (o : α → Bool) (g : α → α)
    (hg : ∀ x, o (g x) = o x) :
    ∀ l : List α, (l.map (fun x => if o x then g x else x)).filter (fun x => !(o x))
      = l.filter (fun x => !(o x))
  | [] => rfl
  | x :: xs => by
    cases hx : o x with
    | true => simp [hx, hg, filter_not_map_guard o g hg xs]
    | false => simp [hx, filter_not_map_guard o g hg xs]

/-- `admin_list_players` leaves the rows of every other org untouched. -/
theorem list_players_other_org_unchanged (db : DB) (tok : TokenPayload)
    (now : Int) (payload : TokenPayload) (hv : verify_token tok now = some payload) :
    (admin_list_players db tok now).2.players.filter
        (fun p => !(p.org_id == payload.org_id))
      = db.players.filter (fun p => !(p.org_id == payload.org_id)) := by
  simp only [admin_list_players, hv]
  exact filter_not_map_guard (fun p => p.org_id == payload.org_id)
    (refresh_status now) (fun x => by simp only []; rw [refresh_status_org]) db.players

/-- When every stored player with the requested id belongs to another
org than the token's, `assign-content` answers the same
`("Player not found", 404)` as for a nonexistent player, unchanged state. -/
theorem assign_cross_org_notFound (db : DB) (tok : TokenPayload) (now : Int)
    (pid : String) (url : Option String) (payload : TokenPayload)
    (hv : verify_token tok now = some payload)
    (h : ∀ player ∈ db.players, player.player_id = pid →
      player.org_id ≠ payload.org_id) :
    admin_assign_content db tok now pid url = (.notFound, db) := by
  simp only [admin_assign_content, hv]
  cases hfind : db.players.find? (fun p => p.player_id == pid) with
  | none => rfl
  | some pl =>
    have hmem := List.mem_of_find?_eq_some hfind
    have hpid : pl.player_id = pid := by
      have h2 := List.find?_some hfind
      simpa using h2
    have hne : (pl.org_id == payload.org_id) = false := by
      simpa using h pl hmem hpid
    simp [hne]

/-- When no stored player has the requested id, `assign-content` answers
`("Player not found", 404)` with the state unchanged. -/
theorem assign_absent_notFound (db : DB) (tok : TokenPayload) (now : Int)
    (pid : String) (url : Option String) (payload : TokenPayload)
    (hv : verify_token tok now = some payload)
    (h : ∀ player ∈ db.players, player.player_id ≠ pid) :
    admin_assign_content db tok now pid url = (.notFound, db) := by
  simp only [admin_assign_content, hv]
  have hfind : db.players.find? (fun p => p.player_id == pid) = none := by
    apply List.find?_eq_none.mpr
    intro x hx
    simpa using h x hx
  simp [hfind]

/-- Claim C4: with a verifying token, listing only returns rows of the
token's org and leaves other orgs' rows untouched, and assigning content
to a player of another org answers exactly the `notFound` of a
nonexistent player, mutating nothing. -/
theorem c4_cross_tenant_isolation (db : DB) (tok : TokenPayload) (now : Int)
    (pid : String) (url : Option String) (payload : TokenPayload)
    (hv : verify_token tok now = some payload) :
    (∀ l, (admin_list_players db tok now).1 = some l →
      ∀ p ∈ l, p.org_id = payload.org_id)
    ∧ ((admin_list_players db tok now).2.players.filter
          (fun p => !(p.org_id == payload.org_id))
        = db.players.filter (fun p => !(p.org_id == payload.org_id)))
    ∧ ((∀ player ∈ db.players, player.player_id = pid →
          player.org_id ≠ payload.org_id) →
        admin_assign_content db tok now pid url = (.notFound, db))
    ∧ ((∀ player ∈ db.players, player.player_id ≠ pid) →
        admin_assign_content db tok now pid url = (.notFound, db)) := by
  obtain ⟨l, hl, hmem, _⟩ := list_players_ok db tok now payload hv
  refine ⟨?_, list_players_other_org_unchanged db tok now payload hv,
    assign_cross_org_notFound db tok now pid url payload hv,
    assign_absent_notFound db tok now pid url payload hv⟩
  intro l2 hl2 p hp
  rw [hl] at hl2
  cases hl2
  exact hmem p hp

/-- Witness for C4: the org-`OA` token cannot see or mutate org `OB`'s
player `pb` — the assign answers the nonexistence 404 and the listing
pass leaves `pb` untouched. -/
theorem c4_cross_tenant_isolation_witness :
    admin_assign_content dbC4 tokC4 0 "pb" (some "https://cdn.example/a.mp4")
      = (.notFound, dbC4)
    ∧ (admin_list_players dbC4 tokC4 0).2.players.filter
          (fun p => !(p.org_id == tokC4.org_id))
      = dbC4.players.filter (fun p => !(p.org_id == tokC4.org_id)) :=
  ⟨(c4_cross_tenant_isolation dbC4 tokC4 0 "pb" (some "https://cdn.example/a.mp4")
      tokC4 (by decide)).2.2.1 (by decide),
   (c4_cross_tenant_isolation dbC4 tokC4 0 "pb" (some "https://cdn.example/a.mp4")
      tokC4 (by decide)).2.1⟩

/-- With a verifying token, `assign-content` never answers the 401
`invalidToken`. -/
theorem assign_never_invalidToken (db : DB) (tok : TokenPayload) (now : Int)
    (pid : String) (url : Option String) (payload : TokenPayload)
    (hv : verify_token tok now = some payload) :
    (admin_assign_content db tok now pid url).1 ≠ .invalidToken := by
  simp only [admin_assign_content, hv]
  cases hfind : db.players.find? (fun p => p.player_id == pid) with
  | none => simp
  | some pl =>
    by_cases h : (pl.org_id == payload.org_id) = true <;> simp [h]

/-- With a verifying token, `pair-device` never answers the 401
`invalidToken`. -/
theorem pair_device_never_invalidToken (db : DB) (tok : TokenPayload) (now : Int)
    (code name loc fp : String) (payload : TokenPayload)
    (hv : verify_token tok now = some payload) :
    (admin_pair_device db tok now code name loc fp).1 ≠ .invalidToken := by
  simp only [admin_pair_device, hv]
  by_cases hc : (code == "") = true
  · simp [hc]
  · simp only [hc, Bool.false_eq_true, if_false]
    cases hw : db.pairing_requests.find? (waitPred code) with
    | none =>
      cases hp : db.pairing_requests.find? (pairedPred code) with
      | none => simp
      | some _ => simp
    | some req =>
      by_cases hdup : (db.players.any (fun p => p.device_id == some req.device_id)
          || db.players.any (fun p => p.player_id == fp)) = true <;> simp [hdup]

/-- Claim C5: the token `check-pairing` hands a device verifies under
the same `verify_token` as admin logins and carries the pairing's org,
so before expiry every admin endpoint accepts it: listing returns
exactly that org's players, and `assign-content` and `pair-device`
proceed past authentication. -/
theorem c5_device_token_grants_admin (db db2 : DB) (device_id code : String)
    (now now2 : Int) (t : TokenPayload) (pid : Option String) (pn : String)
    (h : player_check_pairing db device_id code now = .isPaired t pid pn)
    (hexp : now2 ≤ t.exp)
    (apid acode aname aloc afresh : String) (aurl : Option String) :
    verify_token t now2 = some t
    ∧ (∃ pinfo, db.pairings.find? (fun q => q.pairing_code == code) = some pinfo
        ∧ t.org_id = pinfo.org_id)
    ∧ (∃ l, (admin_list_players db2 t now2).1 = some l
        ∧ (∀ p ∈ l, p.org_id = t.org_id)
        ∧ (∀ q ∈ db2.players, q.org_id = t.org_id → ∃ p ∈ l, p.player_id = q.player_id))
    ∧ (admin_assign_content db2 t now2 apid aurl).1 ≠ .invalidToken
    ∧ (admin_pair_device db2 t now2 acode aname aloc afresh).1 ≠ .invalidToken := by
  obtain ⟨pinfo, hfind, _, _, _, _, ht, _⟩ := check_pairing_isPaired_inv h
  have hvt : verify_token t now2 = some t := by
    unfold verify_token
    rw [if_neg (by omega)]
  exact ⟨hvt, ⟨pinfo, hfind, by rw [ht]; rfl⟩,
    list_players_ok db2 t now2 t hvt,
    assign_never_invalidToken db2 t now2 apid aurl t hvt,
    pair_device_never_invalidToken db2 t now2 acode aname aloc afresh t hvt⟩

/-- Witness for C5: the token issued for device `D5` under org `O5`
verifies and passes the admin endpoints' authentication. -/
theorem c5_device_token_grants_admin_witness :
    player_check_pairing dbC5 "D5" "333333" 0 = .isPaired tokC5 (some "p-5") "Hall"
    ∧ (10 : Int) ≤ tokC5.exp
    ∧ verify_token tokC5 10 = some tokC5
    ∧ (admin_assign_content db2C5 tokC5 10 "p-5" (some "https://cdn.example/b.mp4")).1
        ≠ .invalidToken
    ∧ (admin_pair_device db2C5 tokC5 10 "999999" "New" "" "player-z").1
        ≠ .invalidToken :=
  ⟨by decide, by decide,
   (c5_device_token_grants_admin dbC5 db2C5 "D5" "333333" 0 10 tokC5 (some "p-5") "Hall"
     (by decide) (by decide) "p-5" "999999" "New" "" "player-z"
     (some "https://cdn.example/b.mp4")).1,
   (c5_device_token_grants_admin dbC5 db2C5 "D5" "333333" 0 10 tokC5 (some "p-5") "Hall"
     (by decide) (by decide) "p-5" "999999" "New" "" "player-z"
     (some "https://cdn.example/b.mp4")).2.2.2.1,
   (c5_device_token_grants_admin dbC5 db2C5 "D5" "333333" 0 10 tokC5 (some "p-5") "Hall"
     (by decide) (by decide) "p-5" "999999" "New" "" "player-z"
     (some "https://cdn.example/b.mp4")).2.2.2.2⟩

/-- Claim C7 (code bug): `admin_pair_device` performs no duplicate-device
check, so when the waiting request's device already owns a player —
here `D1` owns `player-1` while request 7 waits on code `654321` — the
insert violates the `players.device_id` unique constraint and the
unhandled IntegrityError surfaces as an HTTP 500 internal error, not
the specified `DuplicateDevice` client error; no new player is
persisted. -/
theorem c7_duplicate_device_internal_error :
    (admin_pair_device dbC7 tokC7 0 "654321" "New Player" "" "player-2").1
      = .internalError
    ∧ (admin_pair_device dbC7 tokC7 0 "654321" "New Player" "" "player-2").2 = dbC7
    ∧ (∃ r ∈ dbC7.pairing_requests, waitPred "654321" r = true ∧ r.device_id = "D1")
    ∧ (∃ p ∈ dbC7.players, p.device_id = some "D1") := by
  decide

/-- Counterexample to C1: the first consume of code `123456` succeeds
and marks its request PAIRED, yet `register_pairing` — whose deletes
carry no status filter — overwrites the PAIRED request with a fresh
WAITING one for device `D2`, after which a second consume of the same
code succeeds. -/
theorem c1_reregistration_after_paired_counterexample :
    pairC1a.1 = .success "player-1" "Lobby"
    ∧ (∃ r ∈ dbC1b.pairing_requests, r.pairing_code = "123456" ∧ r.status = "paired")
    ∧ regC1b.1 = .registered
    ∧ (∀ r ∈ dbC1c.pairing_requests, r.pairing_code = "123456" → r.status = "waiting")
    ∧ pairC1b.1 = .success "player-2" "Lobby2" := by
  decide

/-- A request marked paired no longer matches the waiting filter. -/
theorem waitPred_markPaired (c : String) (r : PairingRequest) :
    waitPred c (markPaired r) = false := by
  unfold waitPred markPaired
  simp

/-- `updateFirst` with a rewrite that respects `q` backwards never
increases the number of `q`-elements. -/
theorem filter_length_updateFirst_le {α : Type} (q p : α → Bool) (f : α → α)
    (hf : ∀ x, q (f x) = true → q x = true) :
    ∀ l : List α, ((updateFirst p f l).filter q).length ≤ (l.filter q).length
  | [] => Nat.le_refl _
  | x :: xs => by
    by_cases hp : p x = true
    · rw [updateFirst, if_pos hp, List.filter_cons, List.filter_cons]
      by_cases hq : q (f x) = true
      · rw [if_pos hq, if_pos (hf x hq)]
        simp
      · rw [if_neg hq]
        by_cases hx : q x = true
        · rw [if_pos hx]
          simp only [List.length_cons]
          omega
        · rw [if_neg hx]
    · rw [updateFirst, if_neg hp, List.filter_cons, List.filter_cons]
      by_cases hx : q x = true
      · rw [if_pos hx, if_pos hx]
        simp only [List.length_cons]
        exact Nat.succ_le_succ (filter_length_updateFirst_le q p f hf xs)
      · rw [if_neg hx, if_neg hx]
        exact filter_length_updateFirst_le q p f hf xs

/-- Rewriting the first `q`-element into a non-`q`-element removes
exactly one `q`-element. -/
theorem filter_length_updateFirst_hit {α : Type} (q : α → Bool) (f : α → α)
    (hf : ∀ x, q (f x) = false) :
    ∀ l : List α, (l.find? q).isSome →
      ((updateFirst q f l).filter q).length + 1 = (l.filter q).length
  | [], h => by simp at h
  | x :: xs, h => by
    by_cases hx : q x = true
    · rw [updateFirst, if_pos hx, List.filter_cons, List.filter_cons,
        if_neg (by simp [hf x]), if_pos hx]
      simp
    · rw [updateFirst, if_neg hx, List.filter_cons, List.filter_cons,
        if_neg hx, if_neg hx]
      apply filter_length_updateFirst_hit q f hf xs
      rwa [List.find?_cons_of_neg _ (by simpa using hx)] at h

/-- Filtering first by another predicate never increases the count. -/
theorem filter_length_filter_le {α : Type} (q r : α → Bool) :
    ∀ l : List α, ((l.filter r).filter q).length ≤ (l.filter q).length
  | [] => Nat.le_refl _
  | x :: xs => by
    rw [List.filter_cons]
    by_cases hr : r x = true
    · rw [if_pos hr, List.filter_cons, List.filter_cons]
      by_cases hx : q x = true
      · rw [if_pos hx, if_pos hx]
        simp only [List.length_cons]
        exact Nat.succ_le_succ (filter_length_filter_le q r xs)
      · rw [if_neg hx, if_neg hx]
        exact filter_length_filter_le q r xs
    · rw [if_neg hr, List.filter_cons]
      by_cases hx : q x = true
      · rw [if_pos hx]
        exact Nat.le_trans (filter_length_filter_le q r xs) (by simp)
      · rw [if_neg hx]
        exact filter_length_filter_le q r xs

/-- `get-content` does not touch the pairing-request table. -/
theorem get_content_requests (db : DB) (d : String) (tok : TokenPayload) (now : Int) :
    (player_get_content db d tok now).2.pairing_requests = db.pairing_requests := by
  unfold player_get_content
  split
  · rfl
  · split <;> rfl

/-- `assign-content` does not touch the pairing-request table. -/
theorem assign_requests (db : DB) (tok : TokenPayload) (now : Int)
    (pid : String) (url : Option String) :
    (admin_assign_content db tok now pid url).2.pairing_requests
      = db.pairing_requests := by
  unfold admin_assign_content
  split
  · rfl
  · split
    · rfl
    · split <;> rfl

/-- Listing players does not touch the pairing-request table. -/
theorem list_players_requests (db : DB) (tok : TokenPayload) (now : Int) :
    (admin_list_players db tok now).2.pairing_requests = db.pairing_requests := by
  unfold admin_list_players
  split <;> rfl

/-- `admin_pair_device` either leaves the state unchanged without
succeeding, or — when a waiting request for the code exists — marks the
first waiting request paired. -/
theorem pair_device_state (db : DB) (tok : TokenPayload) (now : Int)
    (code name loc fp : String) :
    ((admin_pair_device db tok now code name loc fp).2 = db
      ∧ ∀ pid pn, (admin_pair_device db tok now code name loc fp).1 ≠ .success pid pn)
    ∨ ((db.pairing_requests.find? (waitPred code)).isSome
      ∧ (admin_pair_device db tok now code name loc fp).2.pairing_requests
          = updateFirst (waitPred code) markPaired db.pairing_requests) := by
  unfold admin_pair_device
  cases hv : verify_token tok now with
  | none => exact Or.inl ⟨by simp, by simp⟩
  | some payload =>
    by_cases hc : (code == "") = true
    · simp only [hc, if_true]
      exact Or.inl ⟨by simp, by simp⟩
    · simp only [hc, Bool.false_eq_true, if_false]
      cases hw : db.pairing_requests.find? (waitPred code) with
      | none =>
        cases hp : db.pairing_requests.find? (pairedPred code) with
        | some _ => exact Or.inl ⟨by simp, by simp⟩
        | none => exact Or.inl ⟨by simp, by simp⟩
      | some req =>
        by_cases hdup : (db.players.any (fun p => p.device_id == some req.device_id)
            || db.players.any (fun p => p.player_id == fp)) = true
        · simp only [hdup, if_true]
          exact Or.inl ⟨by simp, by simp⟩
        · simp only [hdup, Bool.false_eq_true, if_false]
          exact Or.inr ⟨by simp, by simp⟩

/-- Registering a different code never adds waiting requests for `c`. -/
theorem register_waitingCount_le (c : String) (db : DB) (d code : String)
    (f : Nat) (hcode : (code == c) = false) :
    waitingCount c (register_pairing db d code f).2 ≤ waitingCount c db := by
  unfold waitingCount register_pairing
  split
  · exact Nat.le_refl _
  · simp only [List.filter_append, List.length_append]
    have hnew : List.filter (waitPred c)
        [{ id := f, device_id := d, pairing_code := code, status := "waiting" }] = [] := by
      simp [waitPred, hcode]
    rw [hnew]
    simp only [List.length_nil, Nat.add_zero]
    exact filter_length_filter_le _ _ _

/-- One handled request never increases the number of waiting requests
for a code it does not re-register, and a successful consume of that
code strictly decreases it. -/
theorem step_waitingCount (c : String) (db : DB) (op : Op)
    (h : isRegisterFor c op = false) :
    waitingCount c (stepDB db op) + (if isConsumeSuccess c db op then 1 else 0)
      ≤ waitingCount c db := by
  cases op with
  | register d code f =>
    have hcode : (code == c) = false := by simpa [isRegisterFor] using h
    have hcs : isConsumeSuccess c db (.register d code f) = false := rfl
    simp only [hcs, Bool.false_eq_true, if_false, Nat.add_zero]
    exact register_waitingCount_le c db d code f hcode
  | pair tok now code n l fp =>
    rcases pair_device_state db tok now code n l fp with ⟨hdb, hns⟩ | ⟨hsome, hreq⟩
    · have hcs : isConsumeSuccess c db (.pair tok now code n l fp) = false := by
        unfold isConsumeSuccess
        cases hres : (admin_pair_device db tok now code n l fp).1 with
        | success pid pn => exact absurd hres (hns pid pn)
        | invalidToken => simp
        | missingCode => simp
        | alreadyPaired => simp
        | invalidCode => simp
        | internalError => simp
      simp only [hcs, Bool.false_eq_true, if_false, Nat.add_zero]
      show waitingCount c (admin_pair_device db tok now code n l fp).2 ≤ waitingCount c db
      rw [hdb]
    · by_cases hcc : (code == c) = true
      · have hceq : code = c := by simpa using hcc
        subst hceq
        have hkey := filter_length_updateFirst_hit (waitPred code) markPaired
          (waitPred_markPaired code) db.pairing_requests hsome
        have hbound : (if isConsumeSuccess code db (.pair tok now code n l fp) then 1 else 0)
            ≤ 1 := by
          split <;> omega
        show waitingCount code (admin_pair_device db tok now code n l fp).2 + _
          ≤ waitingCount code db
        unfold waitingCount
        rw [hreq]
        omega
      · have hcs : isConsumeSuccess c db (.pair tok now code n l fp) = false := by
          simp [isConsumeSuccess, hcc]
        simp only [hcs, Bool.false_eq_true, if_false, Nat.add_zero]
        show waitingCount c (admin_pair_device db tok now code n l fp).2 ≤ waitingCount c db
        unfold waitingCount
        rw [hreq]
        exact filter_length_updateFirst_le (waitPred c) (waitPred code) markPaired
          (fun x hx => by rw [waitPred_markPaired] at hx; cases hx) db.pairing_requests
  | checkPairing d cd nw =>
    have hcs : isConsumeSuccess c db (.checkPairing d cd nw) = false := rfl
    simp only [hcs, Bool.false_eq_true, if_false, Nat.add_zero]
    exact Nat.le_refl _
  | getContent d tok nw =>
    have hcs : isConsumeSuccess c db (.getContent d tok nw) = false := rfl
    simp only [hcs, Bool.false_eq_true, if_false, Nat.add_zero]
    show waitingCount c (player_get_content db d tok nw).2 ≤ waitingCount c db
    unfold waitingCount
    rw [get_content_requests]
  | assign tok nw pid url =>
    have hcs : isConsumeSuccess c db (.assign tok nw pid url) = false := rfl
    simp only [hcs, Bool.false_eq_true, if_false, Nat.add_zero]
    show waitingCount c (admin_assign_content db tok nw pid url).2 ≤ waitingCount c db
    unfold waitingCount
    rw [assign_requests]
  | listPlayers tok nw =>
    have hcs : isConsumeSuccess c db (.listPlayers tok nw) = false := rfl
    simp only [hcs, Bool.false_eq_true, if_false, Nat.add_zero]
    show waitingCount c (admin_list_players db tok nw).2 ≤ waitingCount c db
    unfold waitingCount
    rw [list_players_requests]

/-- Along any request sequence that never re-registers code `c`, the
number of successful consumes of `c` is bounded by the initial number
of waiting requests for `c`. -/
theorem consumeCount_le_waitingCount (c : String) :
    ∀ (ops : List Op) (db : DB), (∀ op ∈ ops, isRegisterFor c op = false) →
      consumeSuccessCount c db ops ≤ waitingCount c db
  | [], db, _ => by simp [consumeSuccessCount]
  | op :: ops, db, h => by
    have h1 := step_waitingCount c db op (h op (by simp))
    have h2 := consumeCount_le_waitingCount c ops (stepDB db op)
      (fun o ho => h o (by simp [ho]))
    simp only [consumeSuccessCount]
    omega

/-- Claim C1 as amended: starting from a state with at most one waiting
request for a pairing code, `consume` succeeds at most once over any
request sequence that contains no re-registration of that code; the
counterexample shows that `declareIntent` overwrites a request in any
state — including PAIRED, whose deletion re-arms the code — so the
at-most-once guarantee holds only between re-registrations. -/
theorem c1_consume_at_most_once_amended (c : String) (db : DB) (ops : List Op)
    (hstart : waitingCount c db ≤ 1)
    (hnoreg : ∀ op ∈ ops, isRegisterFor c op = false) :
    consumeSuccessCount c db ops ≤ 1 :=
  Nat.le_trans (consumeCount_le_waitingCount c ops db hnoreg) hstart

/-- Witness for amended C1: in the registered state for code `123456`,
running two consecutive consumes yields at most one success. -/
theorem c1_consume_at_most_once_amended_witness :
    waitingCount "123456" dbC1a ≤ 1
    ∧ consumeSuccessCount "123456" dbC1a opsC1 ≤ 1 :=
  ⟨by decide,
   c1_consume_at_most_once_amended "123456" dbC1a opsC1 (by decide) (by decide)⟩
